import Mathlib

/-!
# Verification of the snowfall-analytics fetch pipeline

Shallow embedding of the repository's core logic:

* `snowfall_data_extract/noaa.py` — `RateLimit`, `WeatherStation`, `WeatherData`,
  `NOAAClient._make_request`, `NOAAClient.get_station_data`,
  `NOAAClient.get_all_stations_data`;
* `src/snowfall_analytics/db.py` — `WeatherDatabase.upsert_station`,
  `WeatherDatabase.upsert_weather_data`;
* `snowfall_data_extract/cli.py` and `src/snowfall_analytics/cli.py` —
  `fetch_station_data` (the per-station orchestrator pipelines).

Backoff sleep durations are modelled exactly in tenths of a second (the only
fractional constant in the source is the `retry_count * 0.1` jitter, so
deciseconds represent every duration exactly): a sleep of `2^n` seconds is the
number `10 * 2^n`.  The rate limiter's clock is modelled as an exact rational
number of seconds that advances only by sleeping.
-/

deriving instance DecidableEq for Except

namespace Snowfall

/-! ## The HTTP client's retry loop (`NOAAClient._make_request`,
snowfall_data_extract/noaa.py lines 87–153) -/

/-- The observable outcome of one HTTP GET issued by `_make_request`:
either a non-error response is returned (`ok`), a transport-level exception
(`RemoteProtocolError`/`ConnectError`/`TransportError`) is raised (`netErr`),
or `response.raise_for_status()` raises `HTTPStatusError` with the given
status code (`errStatus`). -/
inductive Outcome where
  | ok
  | netErr
  | errStatus (code : Nat)
deriving DecidableEq, Repr

/-- The exception finally raised by `_make_request` when it does not return a
response: a transport error, an `HTTPStatusError` carrying its status code, or
the defensive `RuntimeError("Request failed with no exception")`. -/
inductive ReqError where
  | netError
  | httpStatus (code : Nat)
  | runtimeError
deriving DecidableEq, Repr

/-- Lines 148–153 of noaa.py: after the while-loop exits, `_make_request`
raises `last_exception` when one was recorded and otherwise the defensive
`RuntimeError("Request failed with no exception")`. -/
def raiseLast : Option ReqError → Except ReqError Nat
  | some e => .error e
  | none => .error .runtimeError

/-- The retry loop of `NOAAClient._make_request` (noaa.py lines 87–153).

`responses i` is the outcome of the `i`-th HTTP GET actually issued (the
mocked API); on success the index of the returned response is produced.
The returned list collects the backoff sleeps (`asyncio.sleep` durations, in
tenths of a second) performed between attempts, in order.

`fuel` counts the remaining loop iterations; every iteration that neither
returns nor raises increments `retry_count`, so `maxRetries + 1 - rc`
iterations always suffice and the `fuel = 0` case coincides with the
`retry_count > max_retries` loop exit. -/
def makeRequestGo (maxRetries : Nat) (responses : Nat → Outcome) :
    Nat → Nat → Nat → Option ReqError → List Nat → Except ReqError Nat × List Nat
  | 0, _, _, lastExc, sleeps =>
      -- while-loop exhausted: `raise last_exception` / `raise RuntimeError(...)`
      (raiseLast lastExc, sleeps)
  | fuel + 1, idx, rc, lastExc, sleeps =>
      if rc > maxRetries then
        (raiseLast lastExc, sleeps)
      else
        match responses idx with
        | .ok => (.ok idx, sleeps)
        | .netErr =>
            -- except (RemoteProtocolError, ConnectError, TransportError):
            -- wait_time = 2**retry_count + retry_count * 0.1
            if rc + 1 > maxRetries then
              (.error .netError, sleeps)
            else
              makeRequestGo maxRetries responses fuel (idx + 1) (rc + 1)
                (some .netError) (sleeps ++ [10 * 2 ^ (rc + 1) + (rc + 1)])
        | .errStatus c =>
            -- except HTTPStatusError
            if c = 429 then
              -- rate limit: sleep 30 * retry_count, then retry if within budget
              if rc + 1 ≤ maxRetries then
                makeRequestGo maxRetries responses fuel (idx + 1) (rc + 1)
                  (some (.httpStatus 429)) (sleeps ++ [300 * (rc + 1)])
              else
                -- falls through the 5xx test (429 is not 5xx) into `raise`
                (.error (.httpStatus 429), sleeps ++ [300 * (rc + 1)])
            else if 500 ≤ c ∧ c < 600 then
              -- server error: wait_time = 2**retry_count
              if rc + 1 > maxRetries then
                (.error (.httpStatus c), sleeps)
              else
                makeRequestGo maxRetries responses fuel (idx + 1) (rc + 1)
                  (some (.httpStatus c)) (sleeps ++ [10 * 2 ^ (rc + 1)])
            else
              -- other client errors — don't retry: bare `raise`
              (.error (.httpStatus c), sleeps)

/-- Model of `NOAAClient._make_request` on a given sequence of per-attempt outcomes:
result (returned response index or raised error) together with the list of
backoff sleeps (in tenths of a second) performed. -/
def makeRequest (maxRetries : Nat) (responses : Nat → Outcome) :
    Except ReqError Nat × List Nat :=
  makeRequestGo maxRetries responses (maxRetries + 1) 0 0 none []

/-! ## The rate limiter (`RateLimit`, noaa.py lines 18–42) -/

/-- The `RateLimit` object: `calls_per_minute`, the derived
`min_interval = 60.0 / calls_per_minute`, and the mutable `last_call_time`
(initially `0.0`). Times are exact rationals (seconds). -/
structure RateLimit where
  calls_per_minute : ℚ
  min_interval : ℚ
  last_call_time : ℚ
deriving DecidableEq, Repr

/-- Model of `RateLimit.__init__(calls_per_minute)`. -/
def RateLimit.init (callsPerMinute : ℚ) : RateLimit :=
  { calls_per_minute := callsPerMinute
    min_interval := 60 / callsPerMinute
    last_call_time := 0 }

/-- Model of `RateLimit.wait()` executed without interleaving, at fake-clock time
`now`: sleeps `min_interval - elapsed` when `elapsed < min_interval` and
`last_call_time > 0`, then stores the post-sleep clock into
`last_call_time`. The clock advances only by sleeping, so `time.time()`
after the sleep reads `now + sleep`. Returns the updated limiter and the
sleep duration (0 = no wait). -/
def RateLimit.wait (s : RateLimit) (now : ℚ) : RateLimit × ℚ :=
  let elapsed := now - s.last_call_time
  let sleep := if elapsed < s.min_interval ∧ s.last_call_time > 0 then
    s.min_interval - elapsed else 0
  ({ s with last_call_time := now + sleep }, sleep)

/-- The two atomic segments of `wait()` under asyncio: everything before the
`await asyncio.sleep` (read `last_call_time`, compute the sleep) runs without
interleaving, but the write `self.last_call_time = time.time()` happens only
after the sleep. `concurrentWaitPair` is the schedule in which tasks A and B
both enter `wait()` at time `now` before either resumes: both compute their
sleep from the same `last_call_time`, then each resumes, writes, and
returns. Result: (A's return time, B's return time, final limiter state). -/
def RateLimit.concurrentWaitPair (s : RateLimit) (now : ℚ) : ℚ × ℚ × RateLimit :=
  let elapsed := now - s.last_call_time
  let sleepA := if elapsed < s.min_interval ∧ s.last_call_time > 0 then
    s.min_interval - elapsed else 0
  let sleepB := if elapsed < s.min_interval ∧ s.last_call_time > 0 then
    s.min_interval - elapsed else 0
  (now + sleepA, now + sleepB, { s with last_call_time := now + sleepB })

/-! ## Parsed records (`WeatherStation`, `WeatherData`, noaa.py lines 45–69)

Measurement amounts are `decimal.Decimal` values, modelled as exact
rationals; temperatures are `int`, modelled as `Int`; every measurement and
attribute field of `WeatherData` is optional with default `None`. -/

/-- Calendar dates as parsed by pydantic for `date` fields. -/
structure PyDate where
  year : Nat
  month : Nat
  day : Nat
deriving DecidableEq, Repr

/-- The `WeatherStation` pydantic model (noaa.py lines 45–52). -/
structure WeatherStation where
  station_id : String
  name : String
  latitude : ℚ
  longitude : ℚ
  elevation : ℚ
deriving DecidableEq, Repr

/-- The `WeatherData` pydantic model (noaa.py lines 55–69). -/
structure WeatherData where
  station_id : String
  date : PyDate
  precipitation : Option ℚ
  precipitation_attributes : Option String
  snowfall : Option ℚ
  snowfall_attributes : Option String
  snow_depth : Option ℚ
  snow_depth_attributes : Option String
  temp_max : Option Int
  temp_max_attributes : Option String
  temp_min : Option Int
  temp_min_attributes : Option String
deriving DecidableEq, Repr

/-! ## The store (`WeatherDatabase`, src/snowfall_analytics/db.py) -/

/-- The two tables created by `_init_schema`: `weather_station` (primary key
`station_id`) and `weather_data` (primary key `(station_id, date)`). A table
is its list of rows; a `weather_data` row holds exactly the 12 values bound
per record in `upsert_weather_data` (db.py lines 65–81), which are the 12
fields of `WeatherData` in order, so rows are represented by the records
themselves. -/
structure WeatherDatabase where
  weather_station : List WeatherStation
  weather_data : List WeatherData
deriving DecidableEq, Repr

/-- The `weather_data` primary key of a row: `(station_id, date)`. -/
def WeatherData.key (r : WeatherData) : String × PyDate :=
  (r.station_id, r.date)

/-- Modelled from the spec: the SQL file `queries/upsert_weather_data.sql` is
not among the provided sources (only `db.py`, which executes it, is). Per the
spec, `upsertObservations` is a "batched insert-or-replace keyed by (station
identifier, date)", with "overwrite-on-conflict" as "the only conflict
policy". One execution of the statement on one values tuple replaces the
existing row with the same `(station_id, date)` key if present, otherwise
inserts a new row. -/
def execUpsertWeatherData (table : List WeatherData) (r : WeatherData) :
    List WeatherData :=
  if table.any (fun t => decide (t.key = r.key)) then
    table.map (fun t => if t.key = r.key then r else t)
  else
    table ++ [r]

/-- Modelled from the spec: `queries/upsert_weather_station.sql` is likewise
not among the provided sources; per the spec, `upsertStation` is a "single
insert-or-replace keyed by station identifier". -/
def execUpsertStation (table : List WeatherStation) (s : WeatherStation) :
    List WeatherStation :=
  if table.any (fun t => decide (t.station_id = s.station_id)) then
    table.map (fun t => if t.station_id = s.station_id then s else t)
  else
    table ++ [s]

/-- Model of `WeatherDatabase.upsert_station` (db.py lines 36–52). -/
def upsert_station (db : WeatherDatabase) (s : WeatherStation) : WeatherDatabase :=
  { db with weather_station := execUpsertStation db.weather_station s }

/-- Model of `WeatherDatabase.upsert_weather_data` (db.py lines 54–83): `if not data:
return` — the empty list returns before touching the connection; otherwise
each record is converted to its 12-value tuple and `executemany` runs the
upsert statement once per tuple. The second component counts the SQL
statement executions issued (0 means no database statement at all); the
model is total, mirroring that the empty case cannot raise. -/
def upsert_weather_data (db : WeatherDatabase) (data : List WeatherData) :
    WeatherDatabase × Nat :=
  if data.isEmpty then
    (db, 0)
  else
    ({ db with weather_data := data.foldl execUpsertWeatherData db.weather_data },
     data.length)

/-- The `(station_id, date)` primary-key uniqueness invariant of the
`weather_data` table. -/
def uniqueKeys (table : List WeatherData) : Prop :=
  table.Pairwise (fun a b => a.key ≠ b.key)

/-! ## Concrete fixtures (values of the repository's test fixtures) -/

/-- Sample observation for the key `("USW00014838", 2024-01-01)` with the
values of the repository's test fixture. -/
def sampleObsA : WeatherData :=
  { station_id := "USW00014838", date := ⟨2024, 1, 1⟩
    precipitation := some (mkRat 2 100), precipitation_attributes := some ",,"
    snowfall := some (mkRat 5 10), snowfall_attributes := some ",,"
    snow_depth := some (mkRat 40 10), snow_depth_attributes := some ",,"
    temp_max := some 28, temp_max_attributes := some ",,"
    temp_min := some 15, temp_min_attributes := some ",," }

/-- A second observation for the same `(station_id, date)` key as
`sampleObsA` but with different measurement values. -/
def sampleObsB : WeatherData :=
  { station_id := "USW00014838", date := ⟨2024, 1, 1⟩
    precipitation := some 0, precipitation_attributes := some ",,"
    snowfall := some 0, snowfall_attributes := some ",,"
    snow_depth := some (mkRat 40 10), snow_depth_attributes := some ",,"
    temp_max := some 32, temp_max_attributes := some ",,"
    temp_min := some 20, temp_min_attributes := some ",," }

/-! ## Response parsing (`get_station_data`, noaa.py lines 155–184)

A response body is a JSON array of flat objects with upper-case field names;
the endpoint returns every value as a JSON string. Pydantic's aliased
validation maps fixed external names to record fields, treats missing
optional fields as `None`, parses `Decimal` fields exactly and temperature
fields as integers, and raises `ValidationError` on a malformed value. -/

/-- One JSON object of the response array: field name ↦ string value. -/
def Row : Type := List (String × String)

/-- JSON-object field access (first binding wins). -/
def Row.lookup : Row → String → Option String
  | [], _ => none
  | (k, v) :: rest, key => if k = key then some v else Row.lookup rest key

/-- Accumulate the value of a digit string; `none` on any non-digit. -/
def parseDigitsAux : List Char → Nat → Option Nat
  | [], acc => some acc
  | ch :: rest, acc =>
      if ch.isDigit then parseDigitsAux rest (acc * 10 + (ch.toNat - 48))
      else none

/-- A non-empty unsigned digit string. -/
def parseUnsigned (cs : List Char) : Option Nat :=
  if cs.isEmpty then none else parseDigitsAux cs 0

/-- Digits on one side of a decimal point; the empty string stands for zero
(`Decimal` accepts `"5."` and `".5"`). -/
def parseUnsignedOrEmpty (cs : List Char) : Option Nat :=
  if cs.isEmpty then some 0 else parseDigitsAux cs 0

/-- Split a character list at the first `.`, if any. -/
def splitDot : List Char → List Char × Option (List Char)
  | [] => ([], none)
  | ch :: rest =>
      if ch = '.' then ([], some rest)
      else
        let (ip, fp) := splitDot rest
        (ch :: ip, fp)

/-- Model of `decimal.Decimal(s)` on the plain decimal strings the endpoint sends
(optional sign, digits, optional fractional part): the exact rational value
`±(i·10^k + f) / 10^k` — no floating-point rounding. Scientific notation is
not modelled (the NOAA fields are plain decimals). -/
def parseDecimal (s : String) : Option ℚ :=
  let (sign, cs) :=
    match s.data with
    | '-' :: rest => (true, rest)
    | '+' :: rest => (false, rest)
    | cs => (false, cs)
  match splitDot cs with
  | (ip, none) =>
      (parseUnsigned ip).map fun n =>
        mkRat (if sign then -(n : Int) else (n : Int)) 1
  | (ip, some fp) =>
      if ip.isEmpty ∧ fp.isEmpty then none
      else
        match parseUnsignedOrEmpty ip, parseUnsignedOrEmpty fp with
        | some i, some f =>
            let n : Int := (i * 10 ^ fp.length + f : Nat)
            some (mkRat (if sign then -n else n) (10 ^ fp.length))
        | _, _ => none

/-- Model of `int(s)` as pydantic parses integer fields: optional sign and digits. -/
def parseIntStr (s : String) : Option Int :=
  match s.data with
  | '-' :: rest => (parseUnsigned rest).map fun n => -(n : Int)
  | cs => (parseUnsigned cs).map fun n => (n : Int)

/-- ISO `YYYY-MM-DD` parsing as pydantic performs for `date` fields (month
1–12, day 1–31; full calendar validity is not modelled — no claim exercises
it). -/
def parseDate (s : String) : Option PyDate :=
  match s.data with
  | [y1, y2, y3, y4, d1, m1, m2, d2, dd1, dd2] =>
      if d1 = '-' ∧ d2 = '-' then
        match parseUnsigned [y1, y2, y3, y4], parseUnsigned [m1, m2],
            parseUnsigned [dd1, dd2] with
        | some y, some mo, some d =>
            if 1 ≤ mo ∧ mo ≤ 12 ∧ 1 ≤ d ∧ d ≤ 31 then some ⟨y, mo, d⟩ else none
        | _, _, _ => none
      else none
  | _ => none

/-- An optional aliased pydantic field: absent from the row means `None`;
present means the value must parse, otherwise `ValidationError`. -/
def optField {α : Type} (row : Row) (key : String) (p : String → Option α) :
    Option (Option α) :=
  match row.lookup key with
  | none => some none
  | some v => (p v).map some

/-- Model of `WeatherData.model_validate(row)` (noaa.py lines 55–69): `STATION` and
`DATE` are required; every measurement and attribute field is optional with
default `None`, aliased from its fixed external name; `Decimal` fields are
parsed exactly, temperature fields as integers. `none` is a pydantic
`ValidationError`. -/
def validateWeatherData (row : Row) : Option WeatherData := do
  let sid ← row.lookup ("STATION")
  let dateStr ← row.lookup ("DATE")
  let date ← parseDate dateStr
  let prcp ← optField row ("PRCP") parseDecimal
  let prcpAttr ← optField row ("PRCP_ATTRIBUTES") some
  let snow ← optField row ("SNOW") parseDecimal
  let snowAttr ← optField row ("SNOW_ATTRIBUTES") some
  let snwd ← optField row ("SNWD") parseDecimal
  let snwdAttr ← optField row ("SNWD_ATTRIBUTES") some
  let tmax ← optField row ("TMAX") parseIntStr
  let tmaxAttr ← optField row ("TMAX_ATTRIBUTES") some
  let tmin ← optField row ("TMIN") parseIntStr
  let tminAttr ← optField row ("TMIN_ATTRIBUTES") some
  some { station_id := sid, date := date
         precipitation := prcp, precipitation_attributes := prcpAttr
         snowfall := snow, snowfall_attributes := snowAttr
         snow_depth := snwd, snow_depth_attributes := snwdAttr
         temp_max := tmax, temp_max_attributes := tmaxAttr
         temp_min := tmin, temp_min_attributes := tminAttr }

/-- Model of `WeatherStation.model_validate(row)` (noaa.py lines 45–52): all five
fields required, aliased, coordinates parsed as exact decimals. -/
def validateWeatherStation (row : Row) : Option WeatherStation := do
  let sid ← row.lookup ("STATION")
  let name ← row.lookup ("NAME")
  let lat ← (row.lookup ("LATITUDE")).bind parseDecimal
  let lon ← (row.lookup ("LONGITUDE")).bind parseDecimal
  let elev ← (row.lookup ("ELEVATION")).bind parseDecimal
  some { station_id := sid, name := name, latitude := lat, longitude := lon
         elevation := elev }

/-- The list comprehension `[WeatherData.model_validate(row) for row in data]`
(noaa.py line 177): validate left to right, the first `ValidationError`
propagating. -/
def validateAll : List Row → Option (List WeatherData)
  | [] => some []
  | r :: rs =>
      match validateWeatherData r with
      | none => none
      | some w =>
          match validateAll rs with
          | none => none
          | some ws => some (w :: ws)

/-- The response-processing part of `get_station_data` (noaa.py lines
170–180) on the decoded JSON array: `if not data: return [], None`;
otherwise every element is validated into a `WeatherData` and the first
element additionally into a `WeatherStation`. `none` is a propagated
`ValidationError`. -/
def parseStationResponse : List Row → Option (List WeatherData × Option WeatherStation)
  | [] => some ([], none)
  | r :: rs =>
      match validateAll (r :: rs) with
      | none => none
      | some wd =>
          match validateWeatherStation r with
          | none => none
          | some st => some (wd, some st)

/-- The error finally raised by `get_station_data`: either the exception
propagated out of `_make_request`, or a pydantic `ValidationError` from
response parsing. -/
inductive FetchError where
  | request (e : ReqError)
  | validation
deriving DecidableEq, Repr

/-- Model of `NOAAClient.get_station_data` (noaa.py lines 155–184) with the HTTP
layer abstracted: `responses` drives `_make_request` as before and `bodies i`
is the decoded JSON array of the `i`-th response. Request errors and
validation errors both propagate to the caller (lines 182–184 log and
re-raise). -/
def getStationData (m : Nat) (responses : Nat → Outcome) (bodies : Nat → List Row) :
    Except FetchError (List WeatherData × Option WeatherStation) :=
  match makeRequest m responses with
  | (.error e, _) => .error (.request e)
  | (.ok i, _) =>
      match parseStationResponse (bodies i) with
      | none => .error .validation
      | some res => .ok res

/-- The mocked API row of the repository's test fixture
(tests/test_noaa.py, `mock_station_response`). -/
def sampleRow : Row :=
  [("STATION", "USW00014838"),
   ("NAME", "MINNEAPOLIS-ST PAUL INTERNATIONAL AIRPORT, MN US"),
   ("LATITUDE", "44.8831"), ("LONGITUDE", "-93.2289"), ("ELEVATION", "265.8"),
   ("DATE", "2024-01-01"),
   ("PRCP", "0.02"), ("PRCP_ATTRIBUTES", ",,"),
   ("SNOW", "0.5"), ("SNOW_ATTRIBUTES", ",,"),
   ("SNWD", "4.0"), ("SNWD_ATTRIBUTES", ",,"),
   ("TMAX", "28"), ("TMAX_ATTRIBUTES", ",,"),
   ("TMIN", "15"), ("TMIN_ATTRIBUTES", ",,")]

/-- The station record the fixture row validates to. -/
def sampleStation : WeatherStation :=
  { station_id := "USW00014838"
    name := "MINNEAPOLIS-ST PAUL INTERNATIONAL AIRPORT, MN US"
    latitude := mkRat 448831 10000
    longitude := mkRat (-932289) 10000
    elevation := mkRat 2658 10 }

/-! ## The per-station orchestrator pipelines (`fetch_station_data`) -/

/-- What one invocation of `client.get_station_data` does, as observed by
the orchestrator: return parsed data, raise `httpcore.ReadError`, or raise
any other exception. -/
inductive FetchOutcome where
  | success (weather : List WeatherData) (station : Option WeatherStation)
  | readError
  | otherError
deriving DecidableEq, Repr

/-- The exception a per-station pipeline propagates: a re-raised
`httpcore.ReadError`, any other fetch exception, or a database error raised
by an upsert. -/
inductive PipelineError where
  | readErr
  | otherErr
  | storage
deriving DecidableEq, Repr

/-- The store writes of `fetch_station_data` (both cli.py variants):
`if station_info: db.upsert_station(...)` then
`if weather_data: db.upsert_weather_data(...)`. -/
def applyUpserts (db : WeatherDatabase) (weather : List WeatherData)
    (station : Option WeatherStation) : WeatherDatabase :=
  let db1 :=
    match station with
    | some s => upsert_station db s
    | none => db
  if weather.isEmpty then db1 else (upsert_weather_data db1 weather).1

/-- The retry loop of `fetch_station_data` in `snowfall_data_extract/cli.py`
(lines 20–70, `max_retries = 3`). `attempts i` is the outcome of the `i`-th
invocation of `client.get_station_data`; `upsertOk = false` means any
database upsert that is actually performed raises, which the generic
`except Exception` handler re-raises. Only `httpcore.ReadError` is retried,
after a `2^retry_count`-second backoff (recorded in deciseconds); the
`retry_count >= max_retries` check raises before the `while` condition can
fail, so the fuel-0 case (the loop's implicit `return None`, unreachable
from `retry_count = 0`) returns the store unchanged. Result: (outcome,
number of fetch invocations, backoff sleeps). -/
def fetchStationDataExtractGo (attempts : Nat → FetchOutcome) (upsertOk : Bool)
    (db : WeatherDatabase) :
    Nat → Nat → Nat → List Nat →
      Except PipelineError WeatherDatabase × Nat × List Nat
  | 0, _, calls, sleeps => (.ok db, calls, sleeps)
  | fuel + 1, rc, calls, sleeps =>
      match attempts calls with
      | .success weather station =>
          if upsertOk = true ∨ (station = none ∧ weather = []) then
            (.ok (applyUpserts db weather station), calls + 1, sleeps)
          else
            (.error .storage, calls + 1, sleeps)
      | .readError =>
          if rc + 1 ≥ 3 then
            (.error .readErr, calls + 1, sleeps)
          else
            fetchStationDataExtractGo attempts upsertOk db fuel (rc + 1)
              (calls + 1) (sleeps ++ [10 * 2 ^ (rc + 1)])
      | .otherError => (.error .otherErr, calls + 1, sleeps)

/-- Model of `fetch_station_data` of the `snowfall_data_extract` variant, from the
initial state (`retry_count = 0`). -/
def fetchStationDataExtract (attempts : Nat → FetchOutcome) (upsertOk : Bool)
    (db : WeatherDatabase) :
    Except PipelineError WeatherDatabase × Nat × List Nat :=
  fetchStationDataExtractGo attempts upsertOk db 3 0 0 []

/-- Model of `fetch_station_data` from `src/snowfall_analytics/cli.py` (lines 18–48):
a single fetch and the upserts, no retry loop of any kind — every exception
is logged and re-raised. Result: (outcome, number of fetch invocations). -/
def fetchStationDataAnalytics (attempt : FetchOutcome) (upsertOk : Bool)
    (db : WeatherDatabase) : Except PipelineError WeatherDatabase × Nat :=
  match attempt with
  | .success weather station =>
      if upsertOk = true ∨ (station = none ∧ weather = []) then
        (.ok (applyUpserts db weather station), 1)
      else
        (.error .storage, 1)
  | .readError => (.error .readErr, 1)
  | .otherError => (.error .otherErr, 1)

/-! ## The all-stations loop (`get_all_stations_data`, noaa.py lines 186–195) -/

/-- Model of `StationConfig` (config/models.py): the configured station ids and the
inclusive date range. -/
structure StationConfig where
  stations : List String
  start_date : PyDate
  end_date : PyDate

/-- The loop of `get_all_stations_data`: sequentially fetch each configured
station via `get_station_data` and append to `results`; an exception
propagates immediately. `fetch` abstracts `self.get_station_data` (each call
sees its own HTTP environment). -/
def getAllStationsGo
    (fetch : String → PyDate → PyDate →
      Except FetchError (List WeatherData × Option WeatherStation))
    (sd ed : PyDate) :
    List String → List (List WeatherData × Option WeatherStation) →
      Except FetchError (List (List WeatherData × Option WeatherStation))
  | [], results => .ok results
  | sid :: rest, results =>
      match fetch sid sd ed with
      | .error e => .error e
      | .ok r => getAllStationsGo fetch sd ed rest (results ++ [r])

/-- Model of `NOAAClient.get_all_stations_data` (identical in both variants). -/
def getAllStationsData
    (fetch : String → PyDate → PyDate →
      Except FetchError (List WeatherData × Option WeatherStation))
    (config : StationConfig) :
    Except FetchError (List (List WeatherData × Option WeatherStation)) :=
  getAllStationsGo fetch config.start_date config.end_date config.stations []

example :
    makeRequest 3 (fun i => if i < 2 then .errStatus 500 else .ok) =
      (.ok 2, [20, 40]) := by decide

example :
    makeRequest 3 (fun _ => .errStatus 429) =
      (.error (.httpStatus 429), [300, 600, 900, 1200]) := by decide

example :
    makeRequest 3 (fun _ => .errStatus 404) =
      (.error (.httpStatus 404), []) := by decide

example :
    makeRequest 3 (fun _ => .errStatus 503) =
      (.error (.httpStatus 503), [20, 40, 80]) := by decide

example :
    makeRequest 3 (fun _ => .netErr) =
      (.error .netError, [21, 42, 83]) := by decide

/-! ## Single-step unfolding lemmas for the retry loop -/

theorem makeRequestGo_step_ok {m : Nat} {resp : Nat → Outcome}
    {fuel idx rc : Nat} {lastExc : Option ReqError} {sleeps : List Nat}
    (hrc : rc ≤ m) (hresp : resp idx = .ok) :
    makeRequestGo m resp (fuel + 1) idx rc lastExc sleeps = (.ok idx, sleeps) := by
  rw [makeRequestGo, if_neg (by omega), hresp]

theorem makeRequestGo_step_5xx_retry {m : Nat} {resp : Nat → Outcome}
    {fuel idx rc : Nat} {lastExc : Option ReqError} {sleeps : List Nat} {c : Nat}
    (hrc : rc + 1 ≤ m) (hresp : resp idx = .errStatus c)
    (hc : 500 ≤ c ∧ c < 600) :
    makeRequestGo m resp (fuel + 1) idx rc lastExc sleeps =
      makeRequestGo m resp fuel (idx + 1) (rc + 1) (some (.httpStatus c))
        (sleeps ++ [10 * 2 ^ (rc + 1)]) := by
  rw [makeRequestGo, if_neg (by omega), hresp]
  dsimp only
  rw [if_neg (show ¬ c = 429 by omega), if_pos hc, if_neg (show ¬ rc + 1 > m by omega)]

theorem makeRequestGo_step_5xx_exhaust {m : Nat} {resp : Nat → Outcome}
    {fuel idx rc : Nat} {lastExc : Option ReqError} {sleeps : List Nat} {c : Nat}
    (hrc : rc ≤ m) (hrc2 : m < rc + 1) (hresp : resp idx = .errStatus c)
    (hc : 500 ≤ c ∧ c < 600) :
    makeRequestGo m resp (fuel + 1) idx rc lastExc sleeps =
      (.error (.httpStatus c), sleeps) := by
  rw [makeRequestGo, if_neg (by omega), hresp]
  dsimp only
  rw [if_neg (show ¬ c = 429 by omega), if_pos hc, if_pos (show rc + 1 > m by omega)]

theorem makeRequestGo_step_429_retry {m : Nat} {resp : Nat → Outcome}
    {fuel idx rc : Nat} {lastExc : Option ReqError} {sleeps : List Nat}
    (hrc : rc + 1 ≤ m) (hresp : resp idx = .errStatus 429) :
    makeRequestGo m resp (fuel + 1) idx rc lastExc sleeps =
      makeRequestGo m resp fuel (idx + 1) (rc + 1) (some (.httpStatus 429))
        (sleeps ++ [300 * (rc + 1)]) := by
  rw [makeRequestGo, if_neg (by omega), hresp]
  dsimp only
  rw [if_pos (show (429 : Nat) = 429 from rfl), if_pos hrc]

theorem makeRequestGo_step_429_exhaust {m : Nat} {resp : Nat → Outcome}
    {fuel idx rc : Nat} {lastExc : Option ReqError} {sleeps : List Nat}
    (hrc : rc ≤ m) (hrc2 : m < rc + 1) (hresp : resp idx = .errStatus 429) :
    makeRequestGo m resp (fuel + 1) idx rc lastExc sleeps =
      (.error (.httpStatus 429), sleeps ++ [300 * (rc + 1)]) := by
  rw [makeRequestGo, if_neg (by omega), hresp]
  dsimp only
  rw [if_pos (show (429 : Nat) = 429 from rfl), if_neg (show ¬ rc + 1 ≤ m by omega)]

theorem makeRequestGo_step_4xx {m : Nat} {resp : Nat → Outcome}
    {fuel idx rc : Nat} {lastExc : Option ReqError} {sleeps : List Nat} {c : Nat}
    (hrc : rc ≤ m) (hresp : resp idx = .errStatus c)
    (hc400 : 400 ≤ c) (hc500 : c < 500) (hc429 : c ≠ 429) :
    makeRequestGo m resp (fuel + 1) idx rc lastExc sleeps =
      (.error (.httpStatus c), sleeps) := by
  rw [makeRequestGo, if_neg (by omega), hresp]
  dsimp only
  rw [if_neg hc429, if_neg (show ¬ (500 ≤ c ∧ c < 600) by omega)]

theorem makeRequestGo_step_netErr_retry {m : Nat} {resp : Nat → Outcome}
    {fuel idx rc : Nat} {lastExc : Option ReqError} {sleeps : List Nat}
    (hrc : rc + 1 ≤ m) (hresp : resp idx = .netErr) :
    makeRequestGo m resp (fuel + 1) idx rc lastExc sleeps =
      makeRequestGo m resp fuel (idx + 1) (rc + 1) (some .netError)
        (sleeps ++ [10 * 2 ^ (rc + 1) + (rc + 1)]) := by
  rw [makeRequestGo, if_neg (by omega), hresp]
  dsimp only
  rw [if_neg (show ¬ rc + 1 > m by omega)]

/-! ## Exhaustion lemmas: uniformly failing response sequences -/

/-- On an all-5xx response sequence the loop sleeps `2^(rc+1), …, 2^m` seconds
and finally raises the status error of the last attempt. -/
theorem makeRequestGo_all_5xx (m : Nat) (resp : Nat → Outcome) (c : Nat → Nat)
    (hresp : ∀ i, resp i = .errStatus (c i)) (h5 : ∀ i, 500 ≤ c i ∧ c i < 600) :
    ∀ (fuel idx rc : Nat) (lastExc : Option ReqError) (sleeps : List Nat),
      rc ≤ m → fuel = m + 1 - rc →
      makeRequestGo m resp fuel idx rc lastExc sleeps =
        (.error (.httpStatus (c (idx + (m - rc)))),
         sleeps ++ (List.range' (rc + 1) (m - rc)).map fun j => 10 * 2 ^ j) := by
  intro fuel
  induction fuel with
  | zero => intro idx rc lastExc sleeps hrc hfuel; omega
  | succ f ih =>
    intro idx rc lastExc sleeps hrc hfuel
    rcases Nat.lt_or_ge rc m with hlt | hge
    · rw [makeRequestGo_step_5xx_retry (by omega) (hresp idx) (h5 idx),
        ih (idx + 1) (rc + 1) _ _ (by omega) (by omega)]
      have hidx : idx + 1 + (m - (rc + 1)) = idx + (m - rc) := by omega
      have hlen : m - rc = (m - (rc + 1)) + 1 := by omega
      rw [hidx, hlen, List.range'_succ, List.map_cons, List.append_assoc,
        List.singleton_append]
    · have hrcm : rc = m := by omega
      rw [makeRequestGo_step_5xx_exhaust hrc (by omega) (hresp idx) (h5 idx)]
      subst hrcm
      simp

/-- On an all-429 response sequence the loop sleeps `30·(rc+1), …, 30·(m+1)`
seconds and finally re-raises the 429 `HTTPStatusError` itself. -/
theorem makeRequestGo_all_429 (m : Nat) (resp : Nat → Outcome)
    (hresp : ∀ i, resp i = .errStatus 429) :
    ∀ (fuel idx rc : Nat) (lastExc : Option ReqError) (sleeps : List Nat),
      rc ≤ m → fuel = m + 1 - rc →
      makeRequestGo m resp fuel idx rc lastExc sleeps =
        (.error (.httpStatus 429),
         sleeps ++ (List.range' (rc + 1) (m + 1 - rc)).map fun j => 300 * j) := by
  intro fuel
  induction fuel with
  | zero => intro idx rc lastExc sleeps hrc hfuel; omega
  | succ f ih =>
    intro idx rc lastExc sleeps hrc hfuel
    rcases Nat.lt_or_ge rc m with hlt | hge
    · rw [makeRequestGo_step_429_retry (by omega) (hresp idx),
        ih (idx + 1) (rc + 1) _ _ (by omega) (by omega)]
      have hlen : m + 1 - rc = (m + 1 - (rc + 1)) + 1 := by omega
      rw [hlen, List.range'_succ, List.map_cons, List.append_assoc,
        List.singleton_append]
    · have hrcm : rc = m := by omega
      rw [makeRequestGo_step_429_exhaust hrc (by omega) (hresp idx)]
      subst hrcm
      simp [List.range'_succ]

/-! ## Claims C1–C3: retry and backoff behaviour of `_make_request` -/

/-- C1: for every response sequence whose first two requests return status 500
and whose third returns status 200, `_make_request` succeeds with the third
response and performs exactly two backoff sleeps of `2^1` and `2^2` seconds
(`10·2^1` and `10·2^2` deciseconds); and in general, on a sequence of 5xx
responses, every 5xx triggers a retry after a `2^attempt`-second backoff,
bounded by `max_retries`, and exhausting the budget raises the last
encountered error (the status error of the final attempt). -/
theorem claim_C1_server_error_backoff :
    (∀ resp : Nat → Outcome,
        resp 0 = .errStatus 500 → resp 1 = .errStatus 500 → resp 2 = .ok →
        makeRequest 3 resp = (.ok 2, [10 * 2 ^ 1, 10 * 2 ^ 2])) ∧
    (∀ (m : Nat) (resp : Nat → Outcome) (c : Nat → Nat),
        (∀ i, resp i = .errStatus (c i)) → (∀ i, 500 ≤ c i ∧ c i < 600) →
        makeRequest m resp =
          (.error (.httpStatus (c m)), (List.range' 1 m).map fun j => 10 * 2 ^ j)) := by
  constructor
  · intro resp h0 h1 h2
    rw [makeRequest,
      makeRequestGo_step_5xx_retry (by omega) h0 (by omega),
      makeRequestGo_step_5xx_retry (by omega) h1 (by omega),
      makeRequestGo_step_ok (by omega) h2]
    simp
  · intro m resp c hresp h5
    rw [makeRequest,
      makeRequestGo_all_5xx m resp c hresp h5 (m + 1) 0 0 none [] (by omega) (by omega)]
    simp

theorem claim_C1_server_error_backoff_witness :
    makeRequest 3 (fun i => if i < 2 then .errStatus 500 else .ok) =
        (.ok 2, [10 * 2 ^ 1, 10 * 2 ^ 2]) ∧
    makeRequest 3 (fun _ => .errStatus 503) =
        (.error (.httpStatus 503), (List.range' 1 3).map fun j => 10 * 2 ^ j) :=
by
  refine ⟨claim_C1_server_error_backoff.1 _ rfl rfl rfl,
    claim_C1_server_error_backoff.2 3 _ (fun _ => 503) (fun _ => rfl) (fun i => ?_)⟩
  exact ⟨by norm_num, by norm_num⟩

/-- C2: on a response sequence that is HTTP 429 on every attempt,
`_make_request` backs off `30 · attempt` seconds per attempt (deciseconds
`300 · attempt`, attempts `1, …, max_retries + 1`), counts every 429 toward
the bounded retry budget, and on exhaustion raises the 429 `HTTPStatusError`
itself — not the generic `RuntimeError`. -/
theorem claim_C2_rate_limit_backoff :
    ∀ (m : Nat) (resp : Nat → Outcome),
      (∀ i, resp i = .errStatus 429) →
      makeRequest m resp =
        (.error (.httpStatus 429), (List.range' 1 (m + 1)).map fun j => 300 * j) := by
  intro m resp h
  rw [makeRequest, makeRequestGo_all_429 m resp h (m + 1) 0 0 none [] (by omega) (by omega)]
  simp

theorem claim_C2_rate_limit_backoff_witness :
    makeRequest 3 (fun _ => .errStatus 429) =
      (.error (.httpStatus 429), (List.range' 1 4).map fun j => 300 * j) :=
  claim_C2_rate_limit_backoff 3 _ (fun _ => rfl)

/-- C3: a 4xx status other than 429 (e.g. 404) on the first attempt makes
`_make_request` raise that `HTTPStatusError` immediately: no retry is made and
no backoff sleep occurs, for every retry budget. -/
theorem claim_C3_client_error_no_retry :
    ∀ (m : Nat) (resp : Nat → Outcome) (c : Nat),
      resp 0 = .errStatus c → 400 ≤ c → c < 500 → c ≠ 429 →
      makeRequest m resp = (.error (.httpStatus c), []) := by
  intro m resp c h h4 h5 h429
  rw [makeRequest, makeRequestGo_step_4xx (by omega) h h4 h5 h429]

theorem claim_C3_client_error_no_retry_witness :
    makeRequest 3 (fun _ => .errStatus 404) = (.error (.httpStatus 404), []) :=
  claim_C3_client_error_no_retry 3 _ 404 rfl (by omega) (by omega) (by omega)

/-! ## Claim C5: sequential spacing of `RateLimit.wait` -/

/-- Core spacing fact about one uninterleaved `wait()`: when a previous call
has recorded a positive `last_call_time` and the clock has not gone
backwards, the call returns no earlier than `last_call_time + min_interval`,
and it stores its own return time into `last_call_time`. -/
theorem wait_spacing (s : RateLimit) (now : ℚ)
    (hpos : 0 < s.last_call_time) (_hmono : s.last_call_time ≤ now) :
    s.last_call_time + s.min_interval ≤ now + (s.wait now).2 ∧
      (s.wait now).1.last_call_time = now + (s.wait now).2 := by
  unfold RateLimit.wait
  dsimp only
  constructor
  · rcases le_or_lt s.min_interval (now - s.last_call_time) with h | h
    · rw [if_neg (by intro hc; exact absurd hc.1 (not_lt.mpr h))]
      linarith
    · rw [if_pos ⟨h, hpos⟩]
      linarith
  · rfl

/-- C5: with `calls_per_minute = N`, the first `wait()` never sleeps, and
every subsequent sequential call (issued at or after the time the previous
call returned, which `wait` stored in `last_call_time`) returns no earlier
than `60/N` seconds after the previous call returned — consecutive calls are
spaced by at least `60/N` seconds. -/
theorem claim_C5_rate_limit_spacing :
    (∀ (l : ℚ) (now : ℚ), ((RateLimit.init l).wait now).2 = 0) ∧
    (∀ (l : ℚ) (s : RateLimit) (now : ℚ),
        0 < l → s.min_interval = 60 / l →
        0 < s.last_call_time → s.last_call_time ≤ now →
        s.last_call_time + 60 / l ≤ now + (s.wait now).2 ∧
          (s.wait now).1.last_call_time = now + (s.wait now).2) := by
  constructor
  · intro l now
    unfold RateLimit.wait RateLimit.init
    simp
  · intro l s now _ hint hpos hmono
    have h := wait_spacing s now hpos hmono
    rw [hint] at h
    exact h

theorem claim_C5_rate_limit_spacing_witness :
    ((RateLimit.init 5).wait 7).2 = 0 ∧
    ((100 : ℚ) + 60 / 5 ≤ 106 + ((RateLimit.mk 5 12 100).wait 106).2 ∧
      (((RateLimit.mk 5 12 100).wait 106).1.last_call_time =
        106 + ((RateLimit.mk 5 12 100).wait 106).2)) :=
  ⟨claim_C5_rate_limit_spacing.1 5 7,
   claim_C5_rate_limit_spacing.2 5 (RateLimit.mk 5 12 100) 106 (by norm_num)
     (by norm_num) (by norm_num) (by norm_num)⟩

/-! ## Claim C9: no serialization across concurrent callers -/

/-- C9 counterexample: `RateLimit` does not serialize access to
`last_call_time` — the read and the write are separated by an `await`, so
two tasks that both enter `wait()` before either resumes (the
`concurrentWaitPair` schedule) compute the same sleep from the same
timestamp and are released at the same instant. With
`calls_per_minute = 5` (`min_interval = 12`), `last_call_time = 100` and
both calls arriving at time 100, both return at 112: the two calls are 0
seconds apart, not ≥ 60/5 seconds as the claim states. -/
theorem claim_C9_limiter_not_serialized_counterexample :
    ((RateLimit.mk 5 12 100).concurrentWaitPair 100).1 =
        ((RateLimit.mk 5 12 100).concurrentWaitPair 100).2.1 ∧
      ¬ (((RateLimit.mk 5 12 100).concurrentWaitPair 100).1 + 60 / 5 ≤
          ((RateLimit.mk 5 12 100).concurrentWaitPair 100).2.1) := by
  unfold RateLimit.concurrentWaitPair
  norm_num

/-- C9 amended: the limiter's last-call timestamp is not lock-protected, so
overlapping callers are *not* spaced: whenever two callers both enter
`wait()` before either resumes, they return at the same instant (spacing 0).
The `≥ 60/N` spacing holds only between non-overlapping calls, each issued
after the previous one returned. -/
theorem claim_C9_limiter_overlap_amended :
    (∀ (s : RateLimit) (now : ℚ),
        (s.concurrentWaitPair now).1 = (s.concurrentWaitPair now).2.1) ∧
    (∀ (l : ℚ) (s : RateLimit) (now : ℚ),
        s.min_interval = 60 / l → 0 < s.last_call_time → s.last_call_time ≤ now →
        s.last_call_time + 60 / l ≤ now + (s.wait now).2) := by
  constructor
  · intro s now
    rfl
  · intro l s now hint hpos hmono
    have h := (wait_spacing s now hpos hmono).1
    rw [hint] at h
    exact h

theorem claim_C9_limiter_overlap_amended_witness :
    ((RateLimit.mk 5 12 100).concurrentWaitPair 100).1 =
        ((RateLimit.mk 5 12 100).concurrentWaitPair 100).2.1 ∧
      (100 : ℚ) + 60 / 5 ≤ 106 + ((RateLimit.mk 5 12 100).wait 106).2 :=
  ⟨claim_C9_limiter_overlap_amended.1 (RateLimit.mk 5 12 100) 100,
   claim_C9_limiter_overlap_amended.2 5 (RateLimit.mk 5 12 100) 106 (by norm_num)
     (by norm_num) (by norm_num)⟩

/-! ## Claims C6 and C7: upsert semantics -/

theorem key_replace (r t : WeatherData) :
    (if t.key = r.key then r else t).key = t.key := by
  split
  · next heq => rw [heq]
  · rfl

theorem uniqueKeys_execUpsert (table : List WeatherData) (r : WeatherData)
    (h : uniqueKeys table) : uniqueKeys (execUpsertWeatherData table r) := by
  unfold execUpsertWeatherData
  split
  · rw [uniqueKeys, List.pairwise_map]
    refine h.imp ?_
    intro a b hab
    rw [key_replace, key_replace]
    exact hab
  · next hany =>
    rw [Bool.not_eq_true, List.any_eq_false] at hany
    rw [uniqueKeys, List.pairwise_append]
    refine ⟨h, List.pairwise_singleton _ _, ?_⟩
    intro a ha b hb
    rw [List.mem_singleton] at hb
    subst hb
    have := hany a ha
    simpa using this

theorem filter_key_of_mem (table : List WeatherData) (x : WeatherData)
    (k : String × PyDate) (h : uniqueKeys table) (hx : x ∈ table)
    (hk : x.key = k) :
    table.filter (fun t => decide (t.key = k)) = [x] := by
  induction table with
  | nil => cases hx
  | cons a as ih =>
    rw [uniqueKeys, List.pairwise_cons] at h
    rcases List.mem_cons.mp hx with hxa | hxas
    · subst hxa
      rw [List.filter_cons, if_pos (by rw [decide_eq_true_eq]; exact hk)]
      have : as.filter (fun t => decide (t.key = k)) = [] := by
        rw [List.filter_eq_nil_iff]
        intro t ht
        rw [decide_eq_true_eq]
        intro htk
        exact (h.1 t ht) (hk.trans htk.symm)
      rw [this]
    · rw [List.filter_cons, if_neg ?hneg]
      · exact ih h.2 hxas
      case hneg =>
        rw [decide_eq_true_eq]
        intro hak
        exact (h.1 x hxas) (hak.trans hk.symm)

theorem filter_key_execUpsert (table : List WeatherData) (r : WeatherData)
    (h : uniqueKeys table) :
    (execUpsertWeatherData table r).filter (fun t => decide (t.key = r.key)) =
      [r] := by
  unfold execUpsertWeatherData
  split
  · next hany =>
    rw [List.any_eq_true] at hany
    obtain ⟨x, hx, hxk⟩ := hany
    rw [decide_eq_true_eq] at hxk
    have hmem : (if x.key = r.key then r else x) ∈
        table.map (fun t => if t.key = r.key then r else t) :=
      List.mem_map_of_mem _ hx
    rw [if_pos hxk] at hmem
    have huniq : uniqueKeys (table.map (fun t => if t.key = r.key then r else t)) := by
      rw [uniqueKeys, List.pairwise_map]
      refine h.imp ?_
      intro a b hab
      rw [key_replace, key_replace]
      exact hab
    exact filter_key_of_mem _ r r.key huniq hmem rfl
  · next hany =>
    rw [Bool.not_eq_true, List.any_eq_false] at hany
    rw [List.filter_append, List.filter_cons]
    rw [if_pos (by rw [decide_eq_true_eq])]
    have : table.filter (fun t => decide (t.key = r.key)) = [] := by
      rw [List.filter_eq_nil_iff]
      intro t ht
      exact fun hc => absurd hc (by simpa using hany t ht)
    rw [this]
    rfl

/-- C6: writing observation A and then observation B for the same
`(station identifier, date)` key into a store whose observation table
satisfies the primary-key uniqueness invariant leaves exactly one row for
that key, and its values equal B's — overwrite, not duplicate rows; the
`(station, date)` uniqueness invariant still holds afterwards (and the
station table is untouched). -/
theorem claim_C6_upsert_overwrite :
    ∀ (db : WeatherDatabase) (A B : WeatherData),
      A.key = B.key → uniqueKeys db.weather_data →
      ((upsert_weather_data (upsert_weather_data db [A]).1 [B]).1.weather_data.filter
          (fun t => decide (t.key = B.key)) = [B]) ∧
      uniqueKeys
        (upsert_weather_data (upsert_weather_data db [A]).1 [B]).1.weather_data ∧
      (upsert_weather_data (upsert_weather_data db [A]).1 [B]).1.weather_station =
        db.weather_station := by
  intro db A B _ hu
  have h2 : (upsert_weather_data (upsert_weather_data db [A]).1 [B]).1.weather_data =
      execUpsertWeatherData (execUpsertWeatherData db.weather_data A) B := rfl
  refine ⟨?_, ?_, rfl⟩
  · rw [h2]
    exact filter_key_execUpsert _ B (uniqueKeys_execUpsert _ A hu)
  · rw [h2]
    exact uniqueKeys_execUpsert _ B (uniqueKeys_execUpsert _ A hu)

theorem claim_C6_upsert_overwrite_witness :
    ((upsert_weather_data (upsert_weather_data ⟨[], []⟩ [sampleObsA]).1
        [sampleObsB]).1.weather_data.filter
          (fun t => decide (t.key = sampleObsB.key)) = [sampleObsB]) ∧
    uniqueKeys (upsert_weather_data (upsert_weather_data ⟨[], []⟩
        [sampleObsA]).1 [sampleObsB]).1.weather_data ∧
    (upsert_weather_data (upsert_weather_data ⟨[], []⟩ [sampleObsA]).1
        [sampleObsB]).1.weather_station = ([] : List WeatherStation) :=
  claim_C6_upsert_overwrite ⟨[], []⟩ sampleObsA sampleObsB rfl List.Pairwise.nil

/-- C7: `upsert_weather_data` on the empty list is a no-op — it returns with
both tables unchanged and issues zero SQL statements (the `if not data:
return` path runs no statement at all and cannot raise). -/
theorem claim_C7_upsert_empty_noop :
    ∀ db : WeatherDatabase, upsert_weather_data db [] = (db, 0) := by
  intro db
  rfl

/-! ## Claim C4: parsing of successful responses -/

theorem optField_eq {α : Type} {row : Row} {key : String} {p : String → Option α}
    {v : Option α} (h : optField row key p = some v) :
    (row.lookup key).bind p = v := by
  unfold optField at h
  cases hl : row.lookup key with
  | none =>
      rw [hl] at h
      dsimp only at h
      cases h
      rfl
  | some s =>
      rw [hl] at h
      dsimp only at h
      cases hp : p s with
      | none => simp [hp] at h
      | some u =>
          simp only [hp, Option.map_some', Option.some.injEq] at h
          subst h
          rw [Option.some_bind, hp]

theorem bind_some_self {α : Type} (x : Option α) : x.bind some = x := by
  cases x <;> rfl

theorem validateAll_length :
    ∀ (xs : List Row) (ys : List WeatherData), validateAll xs = some ys →
      ys.length = xs.length := by
  intro xs
  induction xs with
  | nil =>
      intro ys h
      cases h
      rfl
  | cons x xs ih =>
      intro ys h
      rw [validateAll] at h
      cases hfx : validateWeatherData x with
      | none => rw [hfx] at h; cases h
      | some y =>
          rw [hfx] at h
          cases hm : validateAll xs with
          | none => rw [hm] at h; cases h
          | some ys2 =>
              rw [hm] at h
              cases h
              simp [ih ys2 hm]

theorem validateAll_get :
    ∀ (xs : List Row) (ys : List WeatherData), validateAll xs = some ys →
      ∀ (j : Nat) (hj : j < xs.length) (hj2 : j < ys.length),
        validateWeatherData (xs.get ⟨j, hj⟩) = some (ys.get ⟨j, hj2⟩) := by
  intro xs
  induction xs with
  | nil =>
      intro ys h j hj hj2
      exact absurd hj (by simp)
  | cons x xs ih =>
      intro ys h j hj hj2
      rw [validateAll] at h
      cases hfx : validateWeatherData x with
      | none => rw [hfx] at h; cases h
      | some y =>
          rw [hfx] at h
          cases hm : validateAll xs with
          | none => rw [hm] at h; cases h
          | some ys2 =>
              rw [hm] at h
              cases h
              cases j with
              | zero => exact hfx
              | succ j =>
                  exact ih ys2 hm j (by simpa using hj) (by simpa using hj2)

/-- C4: on a successful response, an empty JSON array yields
`([], no station info)`; a non-empty array yields exactly one `WeatherData`
per element plus exactly one `WeatherStation` built from the first element;
per record, each missing optional measurement field maps to `None` and each
present one is parsed from its aliased external name — measurement amounts
with exact decimal semantics (`parseDecimal`), temperatures as integers
(`parseIntStr`). -/
theorem claim_C4_response_parsing :
    (parseStationResponse [] = some ([], none) ∧
     ∀ (m : Nat) (responses : Nat → Outcome) (bodies : Nat → List Row)
       (i : Nat) (s : List Nat),
         makeRequest m responses = (.ok i, s) → bodies i = [] →
         getStationData m responses bodies = .ok ([], none)) ∧
    (∀ (r : Row) (rs : List Row) (wd : List WeatherData) (st : Option WeatherStation),
        parseStationResponse (r :: rs) = some (wd, st) →
        wd.length = (r :: rs).length ∧
        (∀ (j : Nat) (hj : j < (r :: rs).length) (hj2 : j < wd.length),
          validateWeatherData ((r :: rs).get ⟨j, hj⟩) = some (wd.get ⟨j, hj2⟩)) ∧
        ∃ s, validateWeatherStation r = some s ∧ st = some s) ∧
    (∀ (row : Row) (w : WeatherData), validateWeatherData row = some w →
        some w.station_id = row.lookup ("STATION") ∧
        some w.date = ((row.lookup ("DATE")).bind parseDate) ∧
        w.precipitation = ((row.lookup ("PRCP")).bind parseDecimal) ∧
        w.precipitation_attributes = row.lookup ("PRCP_ATTRIBUTES") ∧
        w.snowfall = ((row.lookup ("SNOW")).bind parseDecimal) ∧
        w.snowfall_attributes = row.lookup ("SNOW_ATTRIBUTES") ∧
        w.snow_depth = ((row.lookup ("SNWD")).bind parseDecimal) ∧
        w.snow_depth_attributes = row.lookup ("SNWD_ATTRIBUTES") ∧
        w.temp_max = ((row.lookup ("TMAX")).bind parseIntStr) ∧
        w.temp_max_attributes = row.lookup ("TMAX_ATTRIBUTES") ∧
        w.temp_min = ((row.lookup ("TMIN")).bind parseIntStr) ∧
        w.temp_min_attributes = row.lookup ("TMIN_ATTRIBUTES")) ∧
    (∀ (row : Row) (s : WeatherStation), validateWeatherStation row = some s →
        some s.station_id = row.lookup ("STATION") ∧
        some s.name = row.lookup ("NAME") ∧
        some s.latitude = ((row.lookup ("LATITUDE")).bind parseDecimal) ∧
        some s.longitude = ((row.lookup ("LONGITUDE")).bind parseDecimal) ∧
        some s.elevation = ((row.lookup ("ELEVATION")).bind parseDecimal)) := by
  refine ⟨⟨rfl, ?_⟩, ?_, ?_, ?_⟩
  · intro m responses bodies i s hmk hbody
    unfold getStationData
    rw [hmk]
    dsimp only
    rw [hbody]
    rfl
  · intro r rs wd st h
    rw [parseStationResponse] at h
    cases hva : validateAll (r :: rs) with
    | none => rw [hva] at h; cases h
    | some wd2 =>
        rw [hva] at h
        cases hvs : validateWeatherStation r with
        | none => rw [hvs] at h; cases h
        | some s2 =>
            rw [hvs] at h
            simp only [Option.some.injEq, Prod.mk.injEq] at h
            obtain ⟨h1, h2⟩ := h
            subst h1
            exact ⟨validateAll_length _ _ hva,
              fun j hj hj2 => validateAll_get _ _ hva j hj hj2,
              ⟨s2, rfl, h2.symm⟩⟩
  · intro row w h
    rw [validateWeatherData] at h
    obtain ⟨sid, hsid, h⟩ := Option.bind_eq_some.mp h
    obtain ⟨ds, hds, h⟩ := Option.bind_eq_some.mp h
    obtain ⟨date, hdate, h⟩ := Option.bind_eq_some.mp h
    obtain ⟨prcp, hprcp, h⟩ := Option.bind_eq_some.mp h
    obtain ⟨pa, hpa, h⟩ := Option.bind_eq_some.mp h
    obtain ⟨snow, hsnow, h⟩ := Option.bind_eq_some.mp h
    obtain ⟨sa, hsa, h⟩ := Option.bind_eq_some.mp h
    obtain ⟨snwd, hsnwd, h⟩ := Option.bind_eq_some.mp h
    obtain ⟨sda, hsda, h⟩ := Option.bind_eq_some.mp h
    obtain ⟨tmax, htmax, h⟩ := Option.bind_eq_some.mp h
    obtain ⟨ta, hta, h⟩ := Option.bind_eq_some.mp h
    obtain ⟨tmin, htmin, h⟩ := Option.bind_eq_some.mp h
    obtain ⟨tia, htia, h⟩ := Option.bind_eq_some.mp h
    injection h with hw
    subst hw
    refine ⟨hsid.symm, ?_, (optField_eq hprcp).symm, ?_, (optField_eq hsnow).symm,
      ?_, (optField_eq hsnwd).symm, ?_, (optField_eq htmax).symm, ?_,
      (optField_eq htmin).symm, ?_⟩
    · rw [hds, Option.some_bind, hdate]
    · rw [← bind_some_self (row.lookup ("PRCP_ATTRIBUTES"))]
      exact (optField_eq hpa).symm
    · rw [← bind_some_self (row.lookup ("SNOW_ATTRIBUTES"))]
      exact (optField_eq hsa).symm
    · rw [← bind_some_self (row.lookup ("SNWD_ATTRIBUTES"))]
      exact (optField_eq hsda).symm
    · rw [← bind_some_self (row.lookup ("TMAX_ATTRIBUTES"))]
      exact (optField_eq hta).symm
    · rw [← bind_some_self (row.lookup ("TMIN_ATTRIBUTES"))]
      exact (optField_eq htia).symm
  · intro row s h
    rw [validateWeatherStation] at h
    obtain ⟨sid, hsid, h⟩ := Option.bind_eq_some.mp h
    obtain ⟨nm, hnm, h⟩ := Option.bind_eq_some.mp h
    obtain ⟨lat, hlat, h⟩ := Option.bind_eq_some.mp h
    obtain ⟨lon, hlon, h⟩ := Option.bind_eq_some.mp h
    obtain ⟨elev, helev, h⟩ := Option.bind_eq_some.mp h
    injection h with hw
    subst hw
    exact ⟨hsid.symm, hnm.symm, hlat.symm, hlon.symm, helev.symm⟩

theorem claim_C4_response_parsing_witness :
    getStationData 3 (fun _ => .ok) (fun _ => []) = .ok ([], none) ∧
    ([sampleObsA] : List WeatherData).length = ([sampleRow] : List Row).length ∧
    (∃ s, validateWeatherStation sampleRow = some s ∧
      (some sampleStation : Option WeatherStation) = some s) ∧
    sampleObsA.snowfall = ((sampleRow.lookup ("SNOW")).bind parseDecimal) ∧
    sampleObsA.temp_max = ((sampleRow.lookup ("TMAX")).bind parseIntStr) ∧
    some sampleStation.latitude =
      ((sampleRow.lookup ("LATITUDE")).bind parseDecimal) := by
  have hresp : parseStationResponse [sampleRow] =
      some ([sampleObsA], some sampleStation) := by decide
  have hobs : validateWeatherData sampleRow = some sampleObsA := by decide
  have hst : validateWeatherStation sampleRow = some sampleStation := by decide
  have hb := claim_C4_response_parsing.2.1 sampleRow [] [sampleObsA]
    (some sampleStation) hresp
  have hc := claim_C4_response_parsing.2.2.1 sampleRow sampleObsA hobs
  have hd := claim_C4_response_parsing.2.2.2 sampleRow sampleStation hst
  exact ⟨claim_C4_response_parsing.1.2 3 (fun _ => .ok) (fun _ => []) 0 [] rfl rfl,
    hb.1, hb.2.2, hc.2.2.2.2.1, hc.2.2.2.2.2.2.2.2.1, hd.2.2.1⟩

theorem getAllStationsGo_ok
    (fetch : String → PyDate → PyDate →
      Except FetchError (List WeatherData × Option WeatherStation))
    (sd ed : PyDate) :
    ∀ (sids : List String) (results l : List (List WeatherData × Option WeatherStation)),
      getAllStationsGo fetch sd ed sids results = .ok l →
      ∃ tail, l = results ++ tail ∧ tail.length = sids.length ∧
        ∀ (i : Nat) (hi : i < sids.length) (hi2 : i < tail.length),
          fetch (sids.get ⟨i, hi⟩) sd ed = .ok (tail.get ⟨i, hi2⟩) := by
  intro sids
  induction sids with
  | nil =>
      intro results l h
      rw [getAllStationsGo] at h
      cases h
      exact ⟨[], by simp, rfl, fun i hi _ => absurd hi (by simp)⟩
  | cons sid rest ih =>
      intro results l h
      rw [getAllStationsGo] at h
      cases hf : fetch sid sd ed with
      | error e => rw [hf] at h; cases h
      | ok r =>
          rw [hf] at h
          obtain ⟨tail, hl, hlen, hget⟩ := ih (results ++ [r]) l h
          refine ⟨r :: tail, by simpa using hl, by simp [hlen], ?_⟩
          intro i hi hi2
          cases i with
          | zero => exact hf
          | succ i => exact hget i (by simpa using hi) (by simpa using hi2)

/-! ## Claim C8: orchestrator-level retries -/

/-- C8 counterexample: the claim — "for every error raised by the Client's
fetch or by the store's upsert, the orchestrator propagates it immediately
without re-invoking the fetch" — is false for `fetch_station_data` of the
`snowfall_data_extract` variant: when the first fetch raises
`httpcore.ReadError` and the second succeeds, the pipeline sleeps, invokes
the fetch a second time and succeeds (2 invocations, no propagated error)
instead of propagating after 1 invocation. -/
theorem claim_C8_no_orchestrator_retry_counterexample :
    ¬ (∀ (attempts : Nat → FetchOutcome) (u : Bool) (db : WeatherDatabase),
        attempts 0 = .readError →
        (∃ e, (fetchStationDataExtract attempts u db).1 = .error e) ∧
        (fetchStationDataExtract attempts u db).2.1 = 1) := by
  intro hclaim
  have h := (hclaim (fun i => if i = 0 then .readError else .success [] none)
    true ⟨[], []⟩ rfl).2
  have h2 : (fetchStationDataExtract
      (fun i => if i = 0 then .readError else .success [] none) true
      ⟨[], []⟩).2.1 = 2 := by decide
  rw [h2] at h
  exact absurd h (by decide)

/-- C8 amended: the `snowfall_analytics` variant's `fetch_station_data`
never re-invokes the fetch (always exactly one invocation); the
`snowfall_data_extract` variant retries only `httpcore.ReadError` from the
fetch — up to 3 invocations with `2^retry_count`-second backoff, re-raising
after the third — while every other fetch error and every upsert failure
propagates immediately after a single fetch invocation with no backoff
sleep. -/
theorem claim_C8_no_orchestrator_retry_amended :
    (∀ (a : FetchOutcome) (u : Bool) (db : WeatherDatabase),
        (fetchStationDataAnalytics a u db).2 = 1) ∧
    (∀ (attempts : Nat → FetchOutcome) (u : Bool) (db : WeatherDatabase),
        attempts 0 = .otherError →
        fetchStationDataExtract attempts u db = (.error .otherErr, 1, [])) ∧
    (∀ (attempts : Nat → FetchOutcome) (db : WeatherDatabase)
        (weather : List WeatherData) (station : Option WeatherStation),
        attempts 0 = .success weather station →
        (station ≠ none ∨ weather ≠ []) →
        fetchStationDataExtract attempts false db = (.error .storage, 1, [])) ∧
    (∀ (attempts : Nat → FetchOutcome) (u : Bool) (db : WeatherDatabase),
        (∀ i, attempts i = .readError) →
        fetchStationDataExtract attempts u db =
          (.error .readErr, 3, [10 * 2 ^ 1, 10 * 2 ^ 2])) := by
  refine ⟨?_, ?_, ?_, ?_⟩
  · intro a u db
    cases a with
    | success weather station =>
        rw [fetchStationDataAnalytics]
        split <;> rfl
    | readError => rfl
    | otherError => rfl
  · intro attempts u db h
    unfold fetchStationDataExtract
    rw [fetchStationDataExtractGo, h]
  · intro attempts db weather station h hsw
    unfold fetchStationDataExtract
    rw [fetchStationDataExtractGo, h]
    dsimp only
    rw [if_neg ?hcond]
    case hcond =>
      rintro (hfalse | ⟨hst, hw⟩)
      · cases hfalse
      · rcases hsw with hs | hw2
        · exact hs hst
        · exact hw2 hw
  · intro attempts u db h
    unfold fetchStationDataExtract
    rw [fetchStationDataExtractGo, h 0]
    dsimp only
    rw [if_neg (by omega : ¬ 0 + 1 ≥ 3)]
    rw [fetchStationDataExtractGo, h 1]
    dsimp only
    rw [if_neg (by omega : ¬ 1 + 1 ≥ 3)]
    rw [fetchStationDataExtractGo, h 2]
    dsimp only
    rw [if_pos (by omega : 2 + 1 ≥ 3)]
    rfl

theorem claim_C8_no_orchestrator_retry_amended_witness :
    (fetchStationDataAnalytics .readError true ⟨[], []⟩).2 = 1 ∧
    fetchStationDataExtract (fun _ => .otherError) true ⟨[], []⟩ =
      (.error .otherErr, 1, []) ∧
    fetchStationDataExtract (fun _ => .success [sampleObsA] none) false ⟨[], []⟩ =
      (.error .storage, 1, []) ∧
    fetchStationDataExtract (fun _ => .readError) true ⟨[], []⟩ =
      (.error .readErr, 3, [10 * 2 ^ 1, 10 * 2 ^ 2]) :=
  ⟨claim_C8_no_orchestrator_retry_amended.1 .readError true ⟨[], []⟩,
   claim_C8_no_orchestrator_retry_amended.2.1 (fun _ => .otherError) true
     ⟨[], []⟩ rfl,
   claim_C8_no_orchestrator_retry_amended.2.2.1 (fun _ => .success [sampleObsA] none)
     ⟨[], []⟩ [sampleObsA] none rfl (Or.inr (by decide)),
   claim_C8_no_orchestrator_retry_amended.2.2.2 (fun _ => .readError) true
     ⟨[], []⟩ (fun _ => rfl)⟩

/-! ## Claim C10: `get_all_stations_data` -/

/-- C10: when `get_all_stations_data` returns, its result has exactly one
`(observations, station_info)` tuple per configured station identifier, in
the order of `config.stations`, and the `i`-th tuple is the value returned
by `get_station_data` applied to the `i`-th station id with the config's
start and end dates. -/
theorem claim_C10_all_stations_order :
    ∀ (fetch : String → PyDate → PyDate →
        Except FetchError (List WeatherData × Option WeatherStation))
      (config : StationConfig)
      (l : List (List WeatherData × Option WeatherStation)),
      getAllStationsData fetch config = .ok l →
      l.length = config.stations.length ∧
      ∀ (i : Nat) (hi : i < config.stations.length) (hi2 : i < l.length),
        fetch (config.stations.get ⟨i, hi⟩) config.start_date config.end_date =
          .ok (l.get ⟨i, hi2⟩) := by
  intro fetch config l h
  obtain ⟨tail, hl, hlen, hget⟩ :=
    getAllStationsGo_ok fetch config.start_date config.end_date
      config.stations [] l h
  rw [List.nil_append] at hl
  subst hl
  exact ⟨hlen, hget⟩

theorem claim_C10_all_stations_order_witness :
    (([([sampleObsA], some sampleStation)], ([], none))
        : List (List WeatherData × Option WeatherStation) ×
          (List WeatherData × Option WeatherStation)).1.length = 1 ∧
    getAllStationsData (fun _ _ _ => .ok ([sampleObsA], some sampleStation))
        ⟨["USW00014838"], ⟨2024, 1, 1⟩, ⟨2024, 1, 1⟩⟩ =
      .ok [([sampleObsA], some sampleStation)] ∧
    ([([sampleObsA], some sampleStation)]
        : List (List WeatherData × Option WeatherStation)).length = 1 := by
  have h : getAllStationsData (fun _ _ _ => .ok ([sampleObsA], some sampleStation))
      ⟨["USW00014838"], ⟨2024, 1, 1⟩, ⟨2024, 1, 1⟩⟩ =
      .ok [([sampleObsA], some sampleStation)] := rfl
  have := claim_C10_all_stations_order
    (fun _ _ _ => .ok ([sampleObsA], some sampleStation))
    ⟨["USW00014838"], ⟨2024, 1, 1⟩, ⟨2024, 1, 1⟩⟩
    [([sampleObsA], some sampleStation)] h
  exact ⟨this.1, h, this.1⟩

end Snowfall
